import Mathlib

/-!
Verification of the matcha language pipeline (scanner, parser, tree-walking
interpreter) against its natural-language specification.

The Lean definitions below are a shallow embedding of the Rust sources:
`src/token.rs`, `src/matcha.rs`, `src/scanner.rs`, `src/parser.rs`,
`src/environment.rs` and `src/interpreter.rs`.  Rust mutable state
(`&mut` locals, `Rc<RefCell<Environment>>`) is threaded explicitly;
fallible paths return explicit outcomes.  Rust panics (integer division by
zero, `unwrap`, `todo!`, index out of bounds) are modelled by a distinct
`panicked` outcome, never by a normal error value.

Machine-integer payloads (`i32` in matcha.rs, `i64` in scanner.rs) are
modelled as `Int`; the division operator models the host panic conditions
of `i32` division (divisor zero, and `i32::MIN / -1` overflow) explicitly,
because a claim depends on them.  Overflow of `+`, `-`, `*` is not modelled
(no claim depends on it).  `f64` is modelled as `Float`; no theorem below
evaluates a float operation.  The scanner keeps the byte-length/char-index
mismatch of `Scanner::eof`, so its unwrap panic on malformed multi-byte
input is reachable in the model, as it is in the source.
-/

set_option maxHeartbeats 2000000

namespace Matcha

/-- Token kinds, from `src/token.rs` (`enum TokenType`).  The variants
`Colon` and `VarDec` are referenced by `src/parser.rs` (declaration
lookahead) although the `token.rs` snapshot in the tree omits them; they
are included so the parser embedding is faithful to `parser.rs`. -/
inductive TokenType where
  | LeftParen | RightParen | LeftBrace | RightBrace | LeftBracket | RightBracket
  | Comma | Dot | Minus | Plus | SemiColon | Slash | Star | BitwiseNot
  | Bang | BangEqual | Equal | DoubleEqual | Greater | GreaterEqual
  | Less | LessEqual | And | Or | BitwiseAnd | BitwiseOr | BitwiseXor
  | LeftShift | RightShift
  | Identifier | String | Integer | Float
  | Struct | Else | False | Func | For | If | Nil | Return | Super | This
  | True | Let | While
  | Colon | VarDec
  | Eof
  deriving DecidableEq, Repr

/-- Numeric literal, from `src/matcha.rs` (`enum NumberLiteral`).
The `Integer` payload is `i32` in matcha.rs; modelled as `Int`. -/
inductive NumberLiteral where
  | Float (f : Float)
  | Integer (i : Int)
  deriving Repr

/-- Alias so the `Literal.String` constructor can mention the builtin
string type in its own declaration. -/
abbrev Str := String

/-- Runtime/scan-time literal, from `src/matcha.rs` (`enum Literal`). -/
inductive Literal where
  | String (s : Str)
  | Number (n : NumberLiteral)
  | Boolean (b : Bool)
  deriving Repr

/-- `Literal::get_type` from `src/matcha.rs`. -/
def Literal.getType (l : Literal) : Str :=
  match l with
  | .String _ => "String"
  | .Number (.Float _) => "Float"
  | .Number (.Integer _) => "Integer"
  | .Boolean _ => "Boolean"

/-- `impl Add for NumberLiteral` (numeric promotion), `src/matcha.rs`. -/
def numAdd : NumberLiteral → NumberLiteral → NumberLiteral
  | .Integer l, .Integer r => .Integer (l + r)
  | .Float l, .Integer r => .Float (l + Float.ofInt r)
  | .Integer l, .Float r => .Float (Float.ofInt l + r)
  | .Float l, .Float r => .Float (l + r)

/-- `impl Sub for NumberLiteral`, `src/matcha.rs`. -/
def numSub : NumberLiteral → NumberLiteral → NumberLiteral
  | .Integer l, .Integer r => .Integer (l - r)
  | .Float l, .Integer r => .Float (l - Float.ofInt r)
  | .Integer l, .Float r => .Float (Float.ofInt l - r)
  | .Float l, .Float r => .Float (l - r)

/-- `impl Mul for NumberLiteral`, `src/matcha.rs`. -/
def numMul : NumberLiteral → NumberLiteral → NumberLiteral
  | .Integer l, .Integer r => .Integer (l * r)
  | .Float l, .Integer r => .Float (l * Float.ofInt r)
  | .Integer l, .Float r => .Float (Float.ofInt l * r)
  | .Float l, .Float r => .Float (l * r)

/-- `impl Div for NumberLiteral`, `src/matcha.rs` lines 137-156.
The `Integer/Integer` arm is Rust `i32` division, which panics when the
divisor is zero, and on the single overflowing quotient `i32::MIN / -1`;
`none` models that panic.  Otherwise it truncates toward zero (`Int.div`).
Float arms follow IEEE 754 and never panic. -/
def numDiv : NumberLiteral → NumberLiteral → Option NumberLiteral
  | .Integer l, .Integer r =>
      if r = 0 then none
      else if l = -(2 ^ 31) ∧ r = -1 then none
      else some (.Integer (Int.tdiv l r))
  | .Float l, .Integer r => some (.Float (l / Float.ofInt r))
  | .Integer l, .Float r => some (.Float (Float.ofInt l / r))
  | .Float l, .Float r => some (.Float (l / r))

/-- `impl PartialEq for NumberLiteral`, `src/matcha.rs` (mixed kinds
compare by numeric value through `f64::from`). -/
def numEq : NumberLiteral → NumberLiteral → Bool
  | .Integer l, .Integer r => l = r
  | .Float l, .Integer r => l == Float.ofInt r
  | .Integer l, .Float r => Float.ofInt l == r
  | .Float l, .Float r => l == r

/-- `impl PartialOrd for NumberLiteral`, `src/matcha.rs` (mixed kinds
compare through `f64` with `total_cmp`; the float comparison here is the
ordinary order, an adequate model away from NaN, which no theorem uses). -/
def numCmp : NumberLiteral → NumberLiteral → Ordering
  | .Integer l, .Integer r => compare l r
  | .Float l, .Integer r => if l < Float.ofInt r then .lt else if l == Float.ofInt r then .eq else .gt
  | .Integer l, .Float r => if Float.ofInt l < r then .lt else if Float.ofInt l == r then .eq else .gt
  | .Float l, .Float r => if l < r then .lt else if l == r then .eq else .gt

/-- Runtime value, from `src/matcha.rs` (`enum Value`). -/
inductive Value where
  | Empty
  | Optional (o : Option Literal)
  | Literal (l : Literal)
  deriving Repr

/-- Token, from `src/token.rs` (`struct Token`): kind, exact source lexeme,
line, column position, and optional attached literal value.  `u64` fields
are modelled as `Nat`. -/
structure Token where
  tokenType : TokenType
  lexeme : String
  line : Nat
  position : Nat
  literal : Option Literal
  deriving Repr

/-- Expressions, from `src/statement.rs` (`enum Expression`); the Rust
payload structs (`BinaryExpression { left, operator, right }`, etc.) are
inlined as constructor fields.  `Logical` shares `BinaryExpression` with
`Binary` in the source. -/
inductive Expression where
  | Binary (left : Expression) (operator : Token) (right : Expression)
  | Unary (operator : Token) (left : Expression)
  | Literal (value : Token)
  | Grouping (e : Expression)
  | Variable (value : Token)
  | Assignment (name : Token) (value : Expression)
  | Logical (left : Expression) (operator : Token) (right : Expression)
  deriving Repr

/-- Statements, from `src/statement.rs` (`enum Statement`).  The
`VariableDeclaration` payload carries `identifier` and optional
`initializer` as in statement.rs, plus the optional type token (`r#type`)
that the parser.rs snapshot attaches (the interpreter never reads it). -/
inductive Statement where
  | Expression (e : Expression)
  | VariableDeclaration (identifier : Token) (typeAnn : Option Token)
      (initializer : Option Expression)
  | Block (statements : List Statement)
  | If (condition : Expression) (statements : List Statement)
      (elseStatements : Option (List Statement))
  | While (condition : Expression) (statements : List Statement)
  deriving Repr

/-! ## Environment (src/environment.rs)

`Environment { values: HashMap<String, Value>, parent: Option<Rc<RefCell<..>>> }`
is a chain of scopes.  The chain is modelled as a list of scopes, innermost
first; a scope is an association list with unique keys, modelling the
`HashMap` (insertion order never observed).  The `Rc<RefCell>` shared
mutation is modelled by explicit state passing: every evaluation step
returns the updated chain. -/

/-- The `values` map of one `Environment`. -/
abbrev Scope := List (String × Value)

/-- The chain of environments, innermost scope first. -/
abbrev Env := List Scope

/-- `HashMap::get`. -/
def Scope.lookup : Scope → String → Option Value
  | [], _ => none
  | (k, v) :: rest, name => if k = name then some v else Scope.lookup rest name

/-- `HashMap::insert`: replaces any existing binding and returns the
previous value (`Option<Value>`), as `Environment::values.insert` does in
`Interpreter::variable_declaration`. -/
def Scope.insert : Scope → String → Value → Option Value × Scope
  | [], name, v => (none, [(name, v)])
  | (k, w) :: rest, name, v =>
      if k = name then (some w, (k, v) :: rest)
      else
        let (old, rest') := Scope.insert rest name v
        (old, (k, w) :: rest')

/-- `HashMap::get_mut` followed by `*prev = new_value`: succeeds only when
the key is present (`None` models the `.unwrap()` panic path in
`Interpreter::assign`). -/
def Scope.setExisting : Scope → String → Value → Option Scope
  | [], _, _ => none
  | (k, w) :: rest, name, v =>
      if k = name then some ((k, v) :: rest)
      else (Scope.setExisting rest name v).map fun rest' => (k, w) :: rest'

/-- Chain lookup, `Interpreter::variable_expression`: current scope first,
then parents. -/
def lookupVar : Env → String → Option Value
  | [], _ => none
  | s :: rest, name =>
      match Scope.lookup s name with
      | some v => some v
      | none => lookupVar rest name

/-- Index of the first (innermost) scope binding `name`; mirrors the
recursion of `Interpreter::assign` walking `environment.parent`. -/
def findScopeIdx : Env → String → Option Nat
  | [], _ => none
  | s :: rest, name =>
      match Scope.lookup s name with
      | some _ => some 0
      | none => (findScopeIdx rest name).map (· + 1)

/-! ## Interpreter (src/interpreter.rs) -/

/-- Error message constants from the top of `src/interpreter.rs`. -/
def NULLABLE_VALUE_OPERATION_ERROR_MESSAGE : String :=
  "Cannot execute an operation in an optional value. Try unwrapping it first"

def EMPTY_VALUE_OPERATION_ERROR_MESSAGE : String :=
  "Cannot execute a unary operation in an empty value"

/-- Outcome of one evaluation step.  `ok`/`err` mirror
`Result<Value, InterpreterError>` (the `InterpreterError.statement` field,
which attaches the offending syntax node, is not carried: no claim reads
it); `panicked` models a Rust panic aborting the process (integer division
by zero, `unwrap` failure, `todo!`); `fuelOut` is an artifact of the
bounded `while` model and is unreachable in every theorem below. -/
inductive Res where
  | ok (v : Value)
  | err (msg : String)
  | panicked
  | fuelOut

/-- `Interpreter::unwrap_number`, `src/interpreter.rs` lines 275-300. -/
def unwrapNumber : Value → Except String NumberLiteral
  | .Literal (.Number n) => .ok n
  | .Literal (.String _) => .error "Expected number, got string"
  | .Literal (.Boolean _) => .error "Expected number, got boolean"
  | .Empty => .error EMPTY_VALUE_OPERATION_ERROR_MESSAGE
  | .Optional _ => .error NULLABLE_VALUE_OPERATION_ERROR_MESSAGE

/-- `Interpreter::unwrap_bool`, `src/interpreter.rs` lines 447-457 (the
string arm really says "Expected number, got string" in the source). -/
def unwrapBool : Value → Except String Bool
  | .Literal (.Boolean b) => .ok b
  | .Literal (.Number _) => .error "Expected boolean, got number"
  | .Literal (.String _) => .error "Expected number, got string"
  | .Empty => .error EMPTY_VALUE_OPERATION_ERROR_MESSAGE
  | .Optional _ => .error NULLABLE_VALUE_OPERATION_ERROR_MESSAGE

/-- Binary operator dispatch of `Interpreter::binary`,
`src/interpreter.rs` lines 165-272, applied after both operands were
evaluated (the source evaluates left then right unconditionally). -/
def binaryOp (op : Token) (leftValue rightValue : Value) : Res :=
  match op.tokenType with
  | .Plus =>
      match unwrapNumber leftValue, unwrapNumber rightValue with
      | .ok l, .ok r => .ok (.Literal (.Number (numAdd l r)))
      | .error m, _ => .err m
      | .ok _, .error m => .err m
  | .Minus =>
      match unwrapNumber leftValue, unwrapNumber rightValue with
      | .ok l, .ok r => .ok (.Literal (.Number (numSub l r)))
      | .error m, _ => .err m
      | .ok _, .error m => .err m
  | .Star =>
      match unwrapNumber leftValue, unwrapNumber rightValue with
      | .ok l, .ok r => .ok (.Literal (.Number (numMul l r)))
      | .error m, _ => .err m
      | .ok _, .error m => .err m
  | .Slash =>
      match unwrapNumber leftValue, unwrapNumber rightValue with
      | .ok l, .ok r =>
          match numDiv l r with
          | some n => .ok (.Literal (.Number n))
          | none => .panicked
      | .error m, _ => .err m
      | .ok _, .error m => .err m
  | .Greater =>
      match unwrapNumber leftValue, unwrapNumber rightValue with
      | .ok l, .ok r => .ok (.Literal (.Boolean (numCmp l r == .gt)))
      | .error m, _ => .err m
      | .ok _, .error m => .err m
  | .GreaterEqual =>
      match unwrapNumber leftValue, unwrapNumber rightValue with
      | .ok l, .ok r => .ok (.Literal (.Boolean (numCmp l r ≠ .lt)))
      | .error m, _ => .err m
      | .ok _, .error m => .err m
  | .Less =>
      match unwrapNumber leftValue, unwrapNumber rightValue with
      | .ok l, .ok r => .ok (.Literal (.Boolean (numCmp l r == .lt)))
      | .error m, _ => .err m
      | .ok _, .error m => .err m
  | .LessEqual =>
      match unwrapNumber leftValue, unwrapNumber rightValue with
      | .ok l, .ok r => .ok (.Literal (.Boolean (numCmp l r ≠ .gt)))
      | .error m, _ => .err m
      | .ok _, .error m => .err m
  | .DoubleEqual =>
      match leftValue, rightValue with
      | .Literal ll, .Literal rl =>
          match ll, rl with
          | .Number ln, .Number rn => .ok (.Literal (.Boolean (numEq ln rn)))
          | .String ls, .String rs => .ok (.Literal (.Boolean (ls = rs)))
          | .Boolean lb, .Boolean rb => .ok (.Literal (.Boolean (lb = rb)))
          | _, _ =>
              .err ("Can\x27t compare " ++ ll.getType ++ " with " ++ rl.getType)
      | _, _ => .err "Can\x27t compare non-literal values"
  | .BangEqual =>
      match leftValue, rightValue with
      | .Literal ll, .Literal rl =>
          match ll, rl with
          | .Number ln, .Number rn => .ok (.Literal (.Boolean (!numEq ln rn)))
          | .String ls, .String rs => .ok (.Literal (.Boolean (ls ≠ rs)))
          | .Boolean lb, .Boolean rb => .ok (.Literal (.Boolean (lb ≠ rb)))
          | _, _ =>
              .err ("Can\x27t compare " ++ ll.getType ++ " with " ++ rl.getType)
      | _, _ => .err "Can\x27t compare non-literal values"
  | _ => .err ("Invalid operator \x27" ++ op.lexeme ++ "\x27")

/-- Unary operator dispatch of `Interpreter::unary`,
`src/interpreter.rs` lines 107-156, applied after the operand was
evaluated and unwrapped to a `Literal`. -/
def unaryOp (op : Token) (value : Literal) : Res :=
  match op.tokenType with
  | .Minus =>
      match value with
      | .Number (.Integer i) => .ok (.Literal (.Number (.Integer (-i))))
      | .Number (.Float f) => .ok (.Literal (.Number (.Float (-f))))
      | _ => .err "Cannot use operator \x22-\x22 on non-numeric value"
  | .Bang =>
      match value with
      | .Boolean b => .ok (.Literal (.Boolean (!b)))
      | _ => .err "Cannot negate non-boolean value"
  | _ =>
      .err ("Unexpected unary operator. " ++ op.lexeme ++
        " is not a valid unary operator")

/-- `Interpreter::expression`, `src/interpreter.rs`: expression evaluation
threading the environment chain.  Mutation through `Rc<RefCell>` becomes
explicit: the result pairs the updated chain with the outcome.

The `Assignment` case is `Interpreter::assign` (lines 391-425): the source
checks the current scope, and when the name is absent recurses into the
parent with the same assignment — so when the name is first found at chain
depth `k`, the right-hand side is evaluated against the chain truncated to
start at that ancestor (`List.drop k env`), and the inner `k` scopes are
reattached unchanged afterwards.  `Scope.setExisting` returning `none`
models the `.unwrap()` panic. -/
def evalExpr (env : Env) : Expression → Env × Res
  | .Literal tok =>
      match tok.literal with
      | some l => (env, .ok (.Literal l))
      | none => (env, .err "Literal expression value is None. This should never be the case.")
  | .Grouping e => evalExpr env e
  | .Unary op left =>
      match evalExpr env left with
      | (env1, .ok v) =>
          match v with
          | .Empty => (env1, .err EMPTY_VALUE_OPERATION_ERROR_MESSAGE)
          | .Optional _ => (env1, .err NULLABLE_VALUE_OPERATION_ERROR_MESSAGE)
          | .Literal lit => (env1, unaryOp op lit)
      | other => other
  | .Binary left op right =>
      match evalExpr env left with
      | (env1, .ok v1) =>
          match evalExpr env1 right with
          | (env2, .ok v2) => (env2, binaryOp op v1 v2)
          | other => other
      | other => other
  | .Variable tok =>
      match lookupVar env tok.lexeme with
      | some v => (env, .ok v)
      | none =>
          (env, .err ("Variable \x27" ++ tok.lexeme ++ "\x27 not found in the current scope"))
  | .Assignment name value =>
      match findScopeIdx env name.lexeme with
      | none =>
          (env, .err ("Cannot assign a value to undeclared variable \x27" ++
            name.lexeme ++ "\x27"))
      | some k =>
          match evalExpr (List.drop k env) value with
          | (env2, .ok newValue) =>
              match env2 with
              | [] => (List.take k env ++ env2, .panicked)
              | s :: rest =>
                  match Scope.setExisting s name.lexeme newValue with
                  | some s' => (List.take k env ++ s' :: rest, .ok .Empty)
                  | none => (List.take k env ++ env2, .panicked)
          | (env2, r) => (List.take k env ++ env2, r)
  | .Logical left op right =>
      match op.tokenType with
      | .Or =>
          match evalExpr env left with
          | (env1, .ok v1) =>
              match unwrapBool v1 with
              | .error m => (env1, .err m)
              | .ok leftValue =>
                  if leftValue then (env1, .ok (.Literal (.Boolean true)))
                  else
                    match evalExpr env1 right with
                    | (env2, .ok v2) =>
                        match unwrapBool v2 with
                        | .error m => (env2, .err m)
                        | .ok rightValue => (env2, .ok (.Literal (.Boolean rightValue)))
                    | other => other
          | other => other
      | .And =>
          match evalExpr env left with
          | (env1, .ok v1) =>
              match unwrapBool v1 with
              | .error m => (env1, .err m)
              | .ok leftValue =>
                  if !leftValue then (env1, .ok (.Literal (.Boolean false)))
                  else
                    match evalExpr env1 right with
                    | (env2, .ok v2) =>
                        match unwrapBool v2 with
                        | .error m => (env2, .err m)
                        | .ok rightValue =>
                            (env2, .ok (.Literal (.Boolean (leftValue && rightValue))))
                    | other => other
          | other => other
      | _ => (env, .panicked)

/-- The root environment, `Environment::new()`: one scope, no parent. -/
def rootEnv : Env := [[]]

/-- `Interpreter::variable_declaration`, `src/interpreter.rs` lines
302-332.  The initializer value: a literal expression is read straight
from its token (a missing token literal yields `Optional(None)`), any
other expression is evaluated (errors propagate); no initializer yields
`Empty`.  The value is then inserted into the current scope FIRST; only
afterwards, if `insert` reported a previous binding, the redeclaration
error is returned — with the insertion already performed. -/
def execDecl (env : Env) (identifier : Token) (initializer : Option Expression) :
    Env × Res :=
  let valueStep : Env × Res :=
    match initializer with
    | some (.Literal tok) =>
        match tok.literal with
        | some l => (env, .ok (.Literal l))
        | none => (env, .ok (.Optional none))
    | some other => evalExpr env other
    | none => (env, .ok .Empty)
  match valueStep with
  | (env1, .ok value) =>
      match env1 with
      | [] => (env1, .panicked)  -- unreachable: the chain is never empty
      | s :: rest =>
          -- `inserted.1` is the previous value `HashMap::insert` returns,
          -- `inserted.2` the map with the new binding already in place
          let inserted := Scope.insert s identifier.lexeme value
          if inserted.1.isSome then
            (inserted.2 :: rest, .err ("Variable \x27" ++ identifier.lexeme ++
              "\x27 already declared in this scope"))
          else
            (inserted.2 :: rest, .ok .Empty)
  | other => other

mutual

/-- `Interpreter::evaluate`, `src/interpreter.rs` lines 50-66: one
statement.  A successful `variable_declaration` yields `Value::Empty`.
The `fuel` argument bounds the recursion depth (only `while` iteration
makes it necessary); every theorem below supplies enough fuel that the
`fuelOut` artifact is never reached. -/
def execStmt : Nat → Env → Statement → Env × Res
  | 0, env, _ => (env, .fuelOut)
  | fuel + 1, env, stmt =>
      match stmt with
      | .VariableDeclaration identifier _ initializer => execDecl env identifier initializer
      | .Expression e => evalExpr env e
      | .Block ss => execBlock fuel env ss
      | .If c thenStmts elseStmts =>
          match evalExpr env c with
          | (env1, .ok v) =>
              match v with
              | .Literal (.Boolean b) =>
                  if b then execBlock fuel env1 thenStmts
                  else
                    match elseStmts with
                    | some ss => execBlock fuel env1 ss
                    | none => (env1, .ok .Empty)
              | _ => (env1, .err "Expected boolean condition")
          | other => other
      | .While c body => execWhile fuel env c body

/-- `Interpreter::block`, `src/interpreter.rs` lines 353-360: create one
fresh child environment (`Environment::with_parent`), run the statements
against it, then discard the child — mutations to the parents survive
(`List.drop 1`). -/
def execBlock : Nat → Env → List Statement → Env × Res
  | 0, env, _ => (env, .fuelOut)
  | fuel + 1, env, ss =>
      match execStmts fuel ([] :: env) ss with
      | (env', r) => (List.drop 1 env', r)

/-- `Interpreter::interpret`, `src/interpreter.rs` lines 34-48: run the
statements in order, propagating the first error; the value of the LAST
statement is returned (`Empty` for an empty sequence). -/
def execStmts : Nat → Env → List Statement → Env × Res
  | 0, env, _ => (env, .fuelOut)
  | _ + 1, env, [] => (env, .ok .Empty)
  | fuel + 1, env, [s] => execStmt fuel env s
  | fuel + 1, env, s :: ss =>
      match execStmt fuel env s with
      | (env1, .ok _) => execStmts fuel env1 ss
      | other => other

/-- `Interpreter::while_statement`, `src/interpreter.rs` lines 427-445:
evaluate the condition through `unwrap_bool`; while true, run the body as
its own fresh child environment, then re-test. -/
def execWhile : Nat → Env → Expression → List Statement → Env × Res
  | 0, env, _, _ => (env, .fuelOut)
  | fuel + 1, env, c, body =>
      match evalExpr env c with
      | (env1, .ok v) =>
          match unwrapBool v with
          | .error m => (env1, .err m)
          | .ok b =>
              if b then
                match execBlock fuel env1 body with
                | (env2, .ok _) => execWhile fuel env2 c body
                | other => other
              else (env1, .ok .Empty)
      | other => other

end

/-! ## Scanner (src/scanner.rs)

`Scanner::scan` drives a single forward pass over `source.chars()` with
four `&mut` locals (`current_index`, `line`, `position`, `tokens`); they
are threaded here as explicit arguments/results.  `line` starts at 0 and
`position` at 0; `advance` increments `position` BEFORE the token is
emitted, and `add_token` records the values current at emission time. -/

/-- Scanner error, from `src/scanner.rs` (`struct ScannerError` with the
three `ScannerErrorType` message constants). -/
structure ScannerError where
  message : String
  line : Nat
  position : Nat
  deriving DecidableEq, Repr

def UNKNOWN_TOKEN_MESSAGE : String := "Unknown token"
def UNTERMINATED_STRING_MESSAGE : String := "Unterminated string"
def INVALID_NUMBER_MESSAGE : String := "Invalid number"

/-- The UTF-8 byte length of the source, `source.len()` on a Rust `&str`.
`Scanner::eof` compares THIS byte length against `current_index`, which
the scanner uses as a CHAR index everywhere else — for multi-byte input
the two diverge, and the `.unwrap()` in `lookahead`/`advance` can then
panic on a malformed program instead of returning an error. -/
def utf8Len (source : List Char) : Nat :=
  (source.map Char.utf8Size).sum

/-- `Scanner::eof`: `source.len() <= current` — byte length versus char
index, as in the source. -/
def eofAt (source : List Char) (current : Nat) : Bool :=
  utf8Len source ≤ current

/-- `source.chars().nth(current)`. -/
def nthChar (source : List Char) (current : Nat) : Option Char :=
  source.get? current

/-- `Scanner::lookahead`: `'\0'` when `eof` (the byte check) says so,
otherwise `nth(current).unwrap()` — `none` models that unwrap panicking
when the chars are exhausted although the byte check passed. -/
def lookaheadChar (source : List Char) (current : Nat) : Option Char :=
  if eofAt source current then some '\x00' else nthChar source current

/-- `Scanner::add_token`: the lexeme is the exact source slice from
`start_index` to `current_index`. -/
def addToken (source : List Char) (startIndex currentIndex line position : Nat)
    (tokenType : TokenType) (literal : Option Literal) : Token :=
  { tokenType := tokenType,
    lexeme := String.mk ((source.drop startIndex).take (currentIndex - startIndex)),
    line := line, position := position, literal := literal }

/-- `Scanner::matches_next`: consume the next char only if it equals `c`;
returns (matched, current_index, position); `none` models the
`nth(..).unwrap()` panic after the byte-eof check passed. -/
def matchesNext (source : List Char) (current position : Nat) (c : Char) :
    Option (Bool × Nat × Nat) :=
  if eofAt source current then some (false, current, position)
  else
    match nthChar source current with
    | none => none
    | some cur =>
        if cur ≠ c then some (false, current, position)
        else some (true, current + 1, position + 1)

/-- The scan loop of `Scanner::string_literal`: consume until an
unescaped quote or eof, tracking newlines; returns
(current, line, position).  `none` is the `lookahead` unwrap panic.  The
`fuel` argument (callers pass `utf8Len source + 1`, more than the
possible iterations) only bounds the structural recursion; its
exhaustion branch is unreachable. -/
def stringLoop (source : List Char) :
    Nat → Nat → Nat → Nat → Option (Nat × Nat × Nat)
  | 0, current, line, position => some (current, line, position)
  | fuel + 1, current, line, position =>
    match lookaheadChar source current with
    | none => none
    | some la =>
      if la ≠ '\x22' ∧ ¬ eofAt source current then
        -- Scanner::advance cannot panic here: the lookahead above
        -- already fetched a real char at this index
        if la = '\n' then
          stringLoop source fuel (current + 1) (line + 1) 1
        else
          stringLoop source fuel (current + 1) line (position + 1)
      else some (current, line, position)

/-- `Scanner::string_literal`, lines 549-595: body after the opening
quote was consumed.  `none` is a propagated panic. -/
def stringLiteral (source : List Char) (startIndex current line position : Nat)
    (tokens : List Token) :
    Option (Except ScannerError (Nat × Nat × Nat × List Token)) :=
  match stringLoop source (utf8Len source + 1) current line position with
  | none => none
  | some (current1, line1, position1) =>
    if eofAt source current1 then
      some (.error ⟨UNTERMINATED_STRING_MESSAGE, line1, position1⟩)
    else
      -- consume the closing quote (the loop exited on a real quote char,
      -- so this advance cannot panic)
      let current2 := current1 + 1
      let position2 := position1 + 1
      let value := String.mk ((source.drop (startIndex + 1)).take (current2 - startIndex - 2))
      some (.ok (current2, line1, position2,
        tokens ++ [addToken source startIndex current2 line1 position2
          .String (some (.String value))]))

/-- The maximal-digit-run loop shared by `Scanner::number_literal`
(fuel and the `none` panic as in `stringLoop`; `'\0'` at eof is not a
digit, so the loop stops at the end of input). -/
def digitsLoop (source : List Char) :
    Nat → Nat → Nat → Option (Nat × Nat)
  | 0, current, position => some (current, position)
  | fuel + 1, current, position =>
    match lookaheadChar source current with
    | none => none
    | some la =>
      if la.isDigit then
        digitsLoop source fuel (current + 1) (position + 1)
      else some (current, position)

/-- Digit run to a natural number (models `str::parse` on a digit-only
lexeme). -/
def natOfDigits (cs : List Char) : Nat :=
  cs.foldl (fun a c => a * 10 + (c.toNat - 48)) 0

/-- Models `lexeme.parse::<i64>()` on a maximal digit run: fails exactly
on `i64` overflow. -/
def parseI64 (cs : List Char) : Option Int :=
  if natOfDigits cs ≤ 2 ^ 63 - 1 then some (natOfDigits cs) else none

/-- Models `lexeme.parse::<f64>()` on a `digits.digits` lexeme (which
always parses; the value is mantissa times a power of ten).  No theorem
evaluates this. -/
def parseF64 (cs : List Char) : Option Float :=
  let intPart := cs.takeWhile (· ≠ '.')
  let fracPart := (cs.dropWhile (· ≠ '.')).drop 1
  some (Float.ofScientific (natOfDigits (intPart ++ fracPart)) true fracPart.length)

/-- `Scanner::number_literal`, lines 597-677: body after the first digit
was consumed.  The outer `none` is a propagated panic. -/
def numberLiteral (source : List Char) (startIndex current line position : Nat)
    (tokens : List Token) :
    Option (Except ScannerError (Nat × Nat × Nat × List Token)) :=
  match digitsLoop source (utf8Len source + 1) current position with
  | none => none
  | some (current1, position1) =>
    match lookaheadChar source current1 with
    | none => none
    | some la1 =>
      if la1 = '.' then
        -- float: consume the dot (a real char, so no panic), then
        -- require a digit after it
        let current2 := current1 + 1
        let position2 := position1 + 1
        match lookaheadChar source current2 with
        | none => none
        | some la2 =>
          if ¬ la2.isDigit then
            some (.error ⟨INVALID_NUMBER_MESSAGE, line, position2⟩)
          else
            match digitsLoop source (utf8Len source + 1) current2 position2 with
            | none => none
            | some (current3, position3) =>
              let lexeme := (source.drop startIndex).take (current3 - startIndex)
              match parseF64 lexeme with
              | none => some (.error ⟨INVALID_NUMBER_MESSAGE, line, position3⟩)
              | some value =>
                  some (.ok (current3, line, position3,
                    tokens ++ [addToken source startIndex current3 line position3
                      .Float (some (.Number (.Float value)))]))
      else
        let lexeme := (source.drop startIndex).take (current1 - startIndex)
        match parseI64 lexeme with
        | none => some (.error ⟨INVALID_NUMBER_MESSAGE, line, position1⟩)
        | some value =>
            some (.ok (current1, line, position1,
              tokens ++ [addToken source startIndex current1 line position1
                .Integer (some (.Number (.Integer value)))]))

/-- The alphanumeric-run loop of `Scanner::identifier_or_keyword`
(`is_ascii_alphanumeric`: letters and digits only — the underscore is NOT
included in this snapshot; fuel and the `none` panic as in
`stringLoop`). -/
def alnumLoop (source : List Char) :
    Nat → Nat → Nat → Option (Nat × Nat)
  | 0, current, position => some (current, position)
  | fuel + 1, current, position =>
    match lookaheadChar source current with
    | none => none
    | some la =>
      if la.isAlphanum then
        alnumLoop source fuel (current + 1) (position + 1)
      else some (current, position)

/-- The `KEYWORDS` table of `src/matcha.rs` (a `HashMap`, modelled as an
association list; lookup order is irrelevant since keys are distinct). -/
def KEYWORDS : List (String × TokenType) :=
  [ ("struct", .Struct), ("else", .Else), ("false", .False), ("func", .Func),
    ("for", .For), ("if", .If), ("nil", .Nil), ("return", .Return),
    ("super", .Super), ("this", .This), ("true", .True), ("let", .Let),
    ("while", .While) ]

/-- `HashMap::get` on the keyword table. -/
def keywordLookup : List (String × TokenType) → String → Option TokenType
  | [], _ => none
  | (k, t) :: rest, s => if k = s then some t else keywordLookup rest s

/-- `Scanner::identifier_or_keyword`, lines 679-722: consume the maximal
alphanumeric run; a keyword-table hit emits the keyword token with NO
attached literal (including for `true`/`false`); otherwise a generic
`Identifier` token carrying the run text as its literal value.  `none` is
a propagated panic. -/
def identifierOrKeyword (keywords : List (String × TokenType))
    (source : List Char) (startIndex current line position : Nat)
    (tokens : List Token) : Option (Nat × Nat × List Token) :=
  match alnumLoop source (utf8Len source + 1) current position with
  | none => none
  | some (current1, position1) =>
    let value := String.mk ((source.drop startIndex).take (current1 - startIndex))
    match keywordLookup keywords value with
    | some keyword =>
        some (current1, position1,
          tokens ++ [addToken source startIndex current1 line position1 keyword none])
    | none =>
        some (current1, position1,
          tokens ++ [addToken source startIndex current1 line position1
            .Identifier (some (.String value))])

/-- The comment-skipping loop in the `'/'` arm of `Scanner::scan_token`
(fuel and the `none` panic as in `stringLoop`). -/
def commentLoop (source : List Char) :
    Nat → Nat → Nat → Option (Nat × Nat)
  | 0, current, position => some (current, position)
  | fuel + 1, current, position =>
    match lookaheadChar source current with
    | none => none
    | some la =>
      if la ≠ '\n' ∧ ¬ eofAt source current then
        commentLoop source fuel (current + 1) (position + 1)
      else some (current, position)

/-- `Scanner::scan_token`, lines 127-513: read one character (`advance`,
whose unconditional `nth(..).unwrap()` is the leading `none` panic case)
and dispatch.  Returns `none` for a panic, otherwise the error or the
updated (current_index, line, position, tokens). -/
def scanToken (keywords : List (String × TokenType)) (source : List Char)
    (startIndex current line position : Nat) (tokens : List Token) :
    Option (Except ScannerError (Nat × Nat × Nat × List Token)) :=
  match nthChar source current with
  | none => none
  | some c =>
  let current := current + 1
  let position := position + 1
  let single (tt : TokenType) :
      Option (Except ScannerError (Nat × Nat × Nat × List Token)) :=
    some (.ok (current, line, position,
      tokens ++ [addToken source startIndex current line position tt none]))
  let twoChar (second : Char) (matchedType fallback : TokenType) :
      Option (Except ScannerError (Nat × Nat × Nat × List Token)) :=
    match matchesNext source current position second with
    | none => none
    | some (matched, current1, position1) =>
      some (.ok (current1, line, position1,
        tokens ++ [addToken source startIndex current1 line position1
          (if matched then matchedType else fallback) none]))
  match c with
  | '(' => single .LeftParen
  | ')' => single .RightParen
  | '{' => single .LeftBrace
  | '}' => single .RightBrace
  | ',' => single .Comma
  | '.' => single .Dot
  | '-' => single .Minus
  | '+' => single .Plus
  | ';' => single .SemiColon
  | '*' => single .Star
  | '&' => twoChar '&' .And .BitwiseAnd
  | '|' => twoChar '|' .Or .BitwiseOr
  | '!' => twoChar '=' .BangEqual .Bang
  | '=' => twoChar '=' .DoubleEqual .Equal
  | '>' =>
      -- three-way: `>=`, `>>`, else `>`
      match matchesNext source current position '=' with
      | none => none
      | some (true, current1, position1) =>
          some (.ok (current1, line, position1,
            tokens ++ [addToken source startIndex current1 line position1 .GreaterEqual none]))
      | some (false, _, _) =>
        match matchesNext source current position '>' with
        | none => none
        | some (matched, current1, position1) =>
          some (.ok (current1, line, position1,
            tokens ++ [addToken source startIndex current1 line position1
              (if matched then .RightShift else .Greater) none]))
  | '<' =>
      match matchesNext source current position '=' with
      | none => none
      | some (true, current1, position1) =>
          some (.ok (current1, line, position1,
            tokens ++ [addToken source startIndex current1 line position1 .LessEqual none]))
      | some (false, _, _) =>
        match matchesNext source current position '<' with
        | none => none
        | some (matched, current1, position1) =>
          some (.ok (current1, line, position1,
            tokens ++ [addToken source startIndex current1 line position1
              (if matched then .LeftShift else .Less) none]))
  | '^' => single .BitwiseXor
  | '~' => single .BitwiseNot
  | '/' =>
      match matchesNext source current position '/' with
      | none => none
      | some (true, current1, position1) =>
          -- line comment: discard until newline or eof; no token emitted
          match commentLoop source (utf8Len source + 1) current1 position1 with
          | none => none
          | some (current2, position2) => some (.ok (current2, line, position2, tokens))
      | some (false, _, _) => single .Slash
  | ' ' => some (.ok (current, line, position, tokens))
  | '\x0d' => some (.ok (current, line, position, tokens))
  | '\t' => some (.ok (current, line, position, tokens))
  | '\n' => some (.ok (current, line + 1, 0, tokens))
  | '\x22' => stringLiteral source startIndex current line position tokens
  | other =>
      if other.isDigit then
        numberLiteral source startIndex current line position tokens
      else if ('A' ≤ other ∧ other ≤ 'Z') ∨ ('a' ≤ other ∧ other ≤ 'z') then
        match identifierOrKeyword keywords source startIndex current line position tokens with
        | none => none
        | some (current1, position1, tokens1) => some (.ok (current1, line, position1, tokens1))
      else some (.error ⟨UNKNOWN_TOKEN_MESSAGE, line, position⟩)

/-- Result of the scan loop: the final state, a scan error, a Rust panic
(the `unwrap` on a char index past the end of a multi-byte source), or
the unreachable fuel artifact. -/
inductive ScanLoopRes where
  | ok (startIndex current line position : Nat) (tokens : List Token)
  | err (e : ScannerError)
  | panicked
  | fuelOut
  deriving Repr

/-- The `while !eof` loop of `Scanner::scan`, lines 67-78.  Each
`scan_token` consumes at least one index; `fuel` (instantiated with
`utf8Len source + 1` by `scan`) is an artifact that concrete runs never
exhaust. -/
def scanLoop (keywords : List (String × TokenType)) (source : List Char) :
    Nat → Nat → Nat → Nat → Nat → List Token → ScanLoopRes
  | 0, _, _, _, _, _ => .fuelOut
  | fuel + 1, startIndex, current, line, position, tokens =>
      if eofAt source current then
        .ok startIndex current line position tokens
      else
        match scanToken keywords source current current line position tokens with
        | none => .panicked
        | some (.error e) => .err e
        | some (.ok (current1, line1, position1, tokens1)) =>
            scanLoop keywords source fuel current current1 line1 position1 tokens1

/-- Outcome of `Scanner::scan`: the token list (`Ok`), a `ScannerError`
(`Err`), or a process-aborting panic — which IS reachable on malformed
multi-byte input because `eof` compares byte length with a char index. -/
inductive ScanOutcome where
  | ok (tokens : List Token)
  | err (e : ScannerError)
  | panicked
  | fuelOut
  deriving Repr

/-- `Scanner::scan`, lines 57-92: run the loop from index 0 with `line = 0`
and `position = 0`, then append the `Eof` token (whose lexeme reuses the
final `start_index`/`current_index` window, as the source does). -/
def scan (keywords : List (String × TokenType)) (sourceStr : String) :
    ScanOutcome :=
  let source := sourceStr.toList
  match scanLoop keywords source (utf8Len source + 1) 0 0 0 0 [] with
  | .ok startIndex current line position tokens =>
      .ok (tokens ++ [addToken source startIndex current line position .Eof none])
  | .err e => .err e
  | .panicked => .panicked
  | .fuelOut => .fuelOut

/-! ## Parser (src/parser.rs)

`Parser { current_index, tokens }` is threaded as `PState`.  Every parser
method returns `Option (PState × Except ParserError α)`: the `Except`
layer is the Rust `Result<α, ParserError>`; the outer `Option` is `none`
exactly when the Rust code would panic (slice index out of bounds in
`next`/`previous`, `unreachable!()`) or when the recursion fuel — an
artifact bounding Rust recursion that always terminates on
`Eof`-terminated inputs — runs out.  No theorem below reaches `none`. -/

/-- `struct ParserError { message, token }`, `src/parser.rs`. -/
structure ParserError where
  message : String
  token : Token
  deriving Repr

/-- Parser state: the owned token sequence and `current_index`. -/
structure PState where
  tokens : List Token
  idx : Nat
  deriving Repr

/-- `Parser::next`: `&self.tokens[self.current_index]` (panics → `none`). -/
def pNext (p : PState) : Option Token := p.tokens.get? p.idx

/-- `Parser::previous`: `&self.tokens[self.current_index - 1]`
(underflow/out-of-bounds panic → `none`). -/
def pPrevious (p : PState) : Option Token :=
  if p.idx = 0 then none else p.tokens.get? (p.idx - 1)

/-- `Parser::is_end`: the next token is `Eof`. -/
def pIsEnd (p : PState) : Option Bool :=
  (pNext p).map fun t => t.tokenType = .Eof

/-- `Parser::next_matches`. -/
def pNextMatches (p : PState) (tokenType : TokenType) : Option Bool :=
  match pIsEnd p with
  | none => none
  | some true => some false
  | some false => (pNext p).map fun t => tokenType = t.tokenType

/-- `Parser::advance`: step forward unless at `Eof`, returning the token
before the (new) cursor. -/
def pAdvance (p : PState) : Option (PState × Token) :=
  match pIsEnd p with
  | none => none
  | some e =>
      let p' : PState := if e then p else { p with idx := p.idx + 1 }
      (pPrevious p').map fun t => (p', t)

/-- `Parser::consumed_one_of`. -/
def pConsumedOneOf : PState → List TokenType → Option (Bool × PState)
  | p, [] => some (false, p)
  | p, tokenType :: rest =>
      match pNextMatches p tokenType with
      | none => none
      | some true => (pAdvance p).map fun (p', _) => (true, p')
      | some false => pConsumedOneOf p rest

/-- `Parser::consume_and_expect`. -/
def pConsumeAndExpect (p : PState) (tokenType : TokenType) (errorMessage : String) :
    Option (PState × Except ParserError Token) :=
  match pAdvance p with
  | none => none
  | some (p', prev) =>
      if prev.tokenType = tokenType then some (p', .ok prev)
      else some (p', .error ⟨errorMessage, prev⟩)

/-- `Parser::lookahead`. -/
def pLookahead (p : PState) (amount : Nat) : Option Token :=
  p.tokens.get? (p.idx + amount)

/-- The loop inside `Parser::sync`: skip tokens until the PREVIOUS token
is `;`, `for` or `if`, or the end is reached. -/
def pSyncLoop : Nat → PState → Option PState
  | 0, _ => none
  | fuel + 1, p =>
      match pIsEnd p with
      | none => none
      | some true => some p
      | some false =>
          match pPrevious p with
          | none => none
          | some prev =>
              match prev.tokenType with
              | .SemiColon | .For | .If => some p
              | _ =>
                  match pAdvance p with
                  | none => none
                  | some (p1, _) => pSyncLoop fuel p1

/-- `Parser::sync`, lines 74-89: advance once, then resynchronize. -/
def pSync (fuel : Nat) (p : PState) : Option PState :=
  match pAdvance p with
  | none => none
  | some (p1, _) => pSyncLoop fuel p1

mutual

/-- `Parser::statement`, lines 91-114: `if` / `for` keyword dispatch,
4-token lookahead for variable declarations (`ident :=` or
`ident : type =`), brace-opened block, else expression statement. -/
def pStatement : Nat → PState → Option (PState × Except ParserError Statement)
  | 0, _ => none
  | fuel + 1, p =>
      match pConsumedOneOf p [.If] with
      | none => none
      | some (true, p1) => pIfStatement fuel p1
      | some (false, _) =>
      match pConsumedOneOf p [.For] with
      | none => none
      | some (true, p1) => pWhileStatement fuel p1
      | some (false, _) =>
      let t0 := (pLookahead p 0).map Token.tokenType
      let t1 := (pLookahead p 1).map Token.tokenType
      let t2 := (pLookahead p 2).map Token.tokenType
      let t3 := (pLookahead p 3).map Token.tokenType
      if (t0 = some .Identifier ∧ t1 = some .Colon ∧ t2 = some .Identifier ∧ t3 = some .Equal)
          ∨ (t0 = some .Identifier ∧ t1 = some .VarDec) then
        pVariableDeclaration fuel p
      else
        match pConsumedOneOf p [.LeftBrace] with
        | none => none
        | some (true, p1) =>
            match pBlock fuel p1 with
            | none => none
            | some (p2, .ok ss) => some (p2, .ok (.Block ss))
            | some (p2, .error e) => some (p2, .error e)
        | some (false, _) => pExpressionStatement fuel p

/-- `Parser::expression_statement`, lines 116-123. -/
def pExpressionStatement : Nat → PState → Option (PState × Except ParserError Statement)
  | 0, _ => none
  | fuel + 1, p =>
      match pExpression fuel p with
      | none => none
      | some (p1, .error e) => some (p1, .error e)
      | some (p1, .ok expr) =>
          match pConsumeAndExpect p1 .SemiColon "Expected \x27;\x27" with
          | none => none
          | some (p2, .error e) => some (p2, .error e)
          | some (p2, .ok _) => some (p2, .ok (.Expression expr))

/-- `Parser::expression`, lines 125-128: delegates to `assignment`. -/
def pExpression : Nat → PState → Option (PState × Except ParserError Expression)
  | 0, _ => none
  | fuel + 1, p => pAssignment fuel p

/-- `Parser::variable_declaration`, lines 130-157.  The `unreachable!()`
on a missing `:=`/`=` is a panic (`none`). -/
def pVariableDeclaration : Nat → PState → Option (PState × Except ParserError Statement)
  | 0, _ => none
  | fuel + 1, p =>
      match pConsumeAndExpect p .Identifier "Expected identifier" with
      | none => none
      | some (p1, .error e) => some (p1, .error e)
      | some (p1, .ok identifier) =>
      match pConsumedOneOf p1 [.Colon] with
      | none => none
      | some (hasColon, p2) =>
      let typeStep : Option (PState × Except ParserError (Option Token)) :=
        if hasColon then
          match pConsumeAndExpect p2 .Identifier "Expected type identifier" with
          | none => none
          | some (p3, .error e) => some (p3, .error e)
          | some (p3, .ok t) => some (p3, .ok (some t))
        else some (p2, .ok none)
      match typeStep with
      | none => none
      | some (p3, .error e) => some (p3, .error e)
      | some (p3, .ok typeAnn) =>
      match pConsumedOneOf p3 [.VarDec, .Equal] with
      | none => none
      | some (false, _) => none  -- unreachable!() panic
      | some (true, p4) =>
      match pExpression fuel p4 with
      | none => none
      | some (p5, .error e) => some (p5, .error e)
      | some (p5, .ok initializer) =>
      match pConsumeAndExpect p5 .SemiColon "Expected \x27;\x27" with
      | none => none
      | some (p6, .error e) => some (p6, .error e)
      | some (p6, .ok _) =>
          some (p6, .ok (.VariableDeclaration identifier typeAnn (some initializer)))

/-- `Parser::assignment`, lines 168-192: parse `or`; on `=`, require the
left side to be a `Variable` (else "Invalid assignment target" at the
equals token) and recurse right-associatively. -/
def pAssignment : Nat → PState → Option (PState × Except ParserError Expression)
  | 0, _ => none
  | fuel + 1, p =>
      match pOr fuel p with
      | none => none
      | some (p1, .error e) => some (p1, .error e)
      | some (p1, .ok expr) =>
          match pConsumedOneOf p1 [.Equal] with
          | none => none
          | some (false, p2) => some (p2, .ok expr)
          | some (true, p2) =>
              match pPrevious p2 with
              | none => none
              | some equals =>
                  match expr with
                  | .Variable variableTok =>
                      match pAssignment fuel p2 with
                      | none => none
                      | some (p3, .error e) => some (p3, .error e)
                      | some (p3, .ok value) =>
                          some (p3, .ok (.Assignment variableTok value))
                  | _ => some (p2, .error ⟨"Invalid assignment target", equals⟩)

/-- `Parser::or`, lines 194-210. -/
def pOr : Nat → PState → Option (PState × Except ParserError Expression)
  | 0, _ => none
  | fuel + 1, p =>
      match pAnd fuel p with
      | none => none
      | some (p1, .error e) => some (p1, .error e)
      | some (p1, .ok expr) => pOrLoop fuel p1 expr

/-- The `while consumed_one_of([Or])` loop of `Parser::or`. -/
def pOrLoop : Nat → PState → Expression → Option (PState × Except ParserError Expression)
  | 0, _, _ => none
  | fuel + 1, p, expr =>
      match pConsumedOneOf p [.Or] with
      | none => none
      | some (false, p1) => some (p1, .ok expr)
      | some (true, p1) =>
          match pPrevious p1 with
          | none => none
          | some operator =>
              match pAnd fuel p1 with
              | none => none
              | some (p2, .error e) => some (p2, .error e)
              | some (p2, .ok right) =>
                  pOrLoop fuel p2 (.Logical expr operator right)

/-- `Parser::and`, lines 212-228. -/
def pAnd : Nat → PState → Option (PState × Except ParserError Expression)
  | 0, _ => none
  | fuel + 1, p =>
      match pEquality fuel p with
      | none => none
      | some (p1, .error e) => some (p1, .error e)
      | some (p1, .ok expr) => pAndLoop fuel p1 expr

/-- The `while consumed_one_of([And])` loop of `Parser::and`. -/
def pAndLoop : Nat → PState → Expression → Option (PState × Except ParserError Expression)
  | 0, _, _ => none
  | fuel + 1, p, expr =>
      match pConsumedOneOf p [.And] with
      | none => none
      | some (false, p1) => some (p1, .ok expr)
      | some (true, p1) =>
          match pPrevious p1 with
          | none => none
          | some operator =>
              match pEquality fuel p1 with
              | none => none
              | some (p2, .error e) => some (p2, .error e)
              | some (p2, .ok right) =>
                  pAndLoop fuel p2 (.Logical expr operator right)

/-- `Parser::equality`, lines 230-248 (including the discarded
`self.next_matches(TokenType::Equal)` call — pure, but its possible
out-of-bounds panic is kept). -/
def pEquality : Nat → PState → Option (PState × Except ParserError Expression)
  | 0, _ => none
  | fuel + 1, p =>
      match pComparison fuel p with
      | none => none
      | some (p1, .error e) => some (p1, .error e)
      | some (p1, .ok expr) =>
          match pNextMatches p1 .Equal with
          | none => none
          | some _ => pEqualityLoop fuel p1 expr

/-- The `while consumed_one_of([DoubleEqual, BangEqual])` loop. -/
def pEqualityLoop : Nat → PState → Expression → Option (PState × Except ParserError Expression)
  | 0, _, _ => none
  | fuel + 1, p, expr =>
      match pConsumedOneOf p [.DoubleEqual, .BangEqual] with
      | none => none
      | some (false, p1) => some (p1, .ok expr)
      | some (true, p1) =>
          match pPrevious p1 with
          | none => none
          | some operator =>
              match pComparison fuel p1 with
              | none => none
              | some (p2, .error e) => some (p2, .error e)
              | some (p2, .ok right) =>
                  pEqualityLoop fuel p2 (.Binary expr operator right)

/-- `Parser::comparison`, lines 250-271. -/
def pComparison : Nat → PState → Option (PState × Except ParserError Expression)
  | 0, _ => none
  | fuel + 1, p =>
      match pTerm fuel p with
      | none => none
      | some (p1, .error e) => some (p1, .error e)
      | some (p1, .ok expr) => pComparisonLoop fuel p1 expr

/-- The comparison-operator loop. -/
def pComparisonLoop : Nat → PState → Expression → Option (PState × Except ParserError Expression)
  | 0, _, _ => none
  | fuel + 1, p, expr =>
      match pConsumedOneOf p [.Greater, .GreaterEqual, .Less, .LessEqual] with
      | none => none
      | some (false, p1) => some (p1, .ok expr)
      | some (true, p1) =>
          match pPrevious p1 with
          | none => none
          | some operator =>
              match pTerm fuel p1 with
              | none => none
              | some (p2, .error e) => some (p2, .error e)
              | some (p2, .ok right) =>
                  pComparisonLoop fuel p2 (.Binary expr operator right)

/-- `Parser::term`, lines 273-289. -/
def pTerm : Nat → PState → Option (PState × Except ParserError Expression)
  | 0, _ => none
  | fuel + 1, p =>
      match pFactor fuel p with
      | none => none
      | some (p1, .error e) => some (p1, .error e)
      | some (p1, .ok expr) => pTermLoop fuel p1 expr

/-- The `-`/`+` loop of `Parser::term`. -/
def pTermLoop : Nat → PState → Expression → Option (PState × Except ParserError Expression)
  | 0, _, _ => none
  | fuel + 1, p, expr =>
      match pConsumedOneOf p [.Minus, .Plus] with
      | none => none
      | some (false, p1) => some (p1, .ok expr)
      | some (true, p1) =>
          match pPrevious p1 with
          | none => none
          | some operator =>
              match pFactor fuel p1 with
              | none => none
              | some (p2, .error e) => some (p2, .error e)
              | some (p2, .ok right) =>
                  pTermLoop fuel p2 (.Binary expr operator right)

/-- `Parser::factor`, lines 291-307. -/
def pFactor : Nat → PState → Option (PState × Except ParserError Expression)
  | 0, _ => none
  | fuel + 1, p =>
      match pUnary fuel p with
      | none => none
      | some (p1, .error e) => some (p1, .error e)
      | some (p1, .ok expr) => pFactorLoop fuel p1 expr

/-- The `/`/`*` loop of `Parser::factor`. -/
def pFactorLoop : Nat → PState → Expression → Option (PState × Except ParserError Expression)
  | 0, _, _ => none
  | fuel + 1, p, expr =>
      match pConsumedOneOf p [.Slash, .Star] with
      | none => none
      | some (false, p1) => some (p1, .ok expr)
      | some (true, p1) =>
          match pPrevious p1 with
          | none => none
          | some operator =>
              match pUnary fuel p1 with
              | none => none
              | some (p2, .error e) => some (p2, .error e)
              | some (p2, .ok right) =>
                  pFactorLoop fuel p2 (.Binary expr operator right)

/-- `Parser::unary`, lines 309-321: prefix `!`/`-`, right associative. -/
def pUnary : Nat → PState → Option (PState × Except ParserError Expression)
  | 0, _ => none
  | fuel + 1, p =>
      match pConsumedOneOf p [.Bang, .Minus] with
      | none => none
      | some (true, p1) =>
          match pPrevious p1 with
          | none => none
          | some operator =>
              match pUnary fuel p1 with
              | none => none
              | some (p2, .error e) => some (p2, .error e)
              | some (p2, .ok left) => some (p2, .ok (.Unary operator left))
      | some (false, _) => pPrimary fuel p

/-- `Parser::primary`, lines 323-368: literal tokens (including `true`
and `false` KEYWORD tokens — the literal expression reuses the token
as-is, with whatever literal value the scanner attached), identifier
reads, and parenthesized groups.  The final "Unexpected token" message
formats the whole token with `{:#?}` in Rust; only the error token
matters to any claim, so the lexeme stands in for the debug dump here. -/
def pPrimary : Nat → PState → Option (PState × Except ParserError Expression)
  | 0, _ => none
  | fuel + 1, p =>
      match pConsumedOneOf p [.False, .True, .String, .Integer, .Float] with
      | none => none
      | some (true, p1) =>
          match pPrevious p1 with
          | none => none
          | some value => some (p1, .ok (.Literal value))
      | some (false, _) =>
      match pNext p with
      | none => none
      | some nextTok =>
      if nextTok.tokenType = .Identifier then
        match pAdvance p with
        | none => none
        | some (p1, _) =>
            match pPrevious p1 with
            | none => none
            | some value => some (p1, .ok (.Variable value))
      else
        match pConsumedOneOf p [.LeftParen] with
        | none => none
        | some (true, p1) =>
            match pExpression fuel p1 with
            | none => none
            | some (p2, .error e) => some (p2, .error e)
            | some (p2, .ok expression) =>
                match pNextMatches p2 .RightParen with
                | none => none
                | some false =>
                    match pNext p2 with
                    | none => none
                    | some token =>
                        some (p2, .error ⟨"Expected \x27)\x27 after expression. Got: " ++
                          token.lexeme, token⟩)
                | some true =>
                    match pAdvance p2 with
                    | none => none
                    | some (p3, _) => some (p3, .ok (.Grouping expression))
        | some (false, _) =>
            match pNext p with
            | none => none
            | some current =>
                some (p, .error ⟨"Unexpected token \x27" ++ current.lexeme ++ "\x27",
                  current⟩)

/-- `Parser::block`, lines 370-382: statements until `}` or end, then a
required `}`. -/
def pBlock : Nat → PState → Option (PState × Except ParserError (List Statement))
  | 0, _ => none
  | fuel + 1, p => pBlockLoop fuel p []

/-- The statement loop of `Parser::block`. -/
def pBlockLoop : Nat → PState → List Statement → Option (PState × Except ParserError (List Statement))
  | 0, _, _ => none
  | fuel + 1, p, acc =>
      match pNextMatches p .RightBrace with
      | none => none
      | some rb =>
      match pIsEnd p with
      | none => none
      | some atEnd =>
      if ¬ rb ∧ ¬ atEnd then
        match pStatement fuel p with
        | none => none
        | some (p1, .error e) => some (p1, .error e)
        | some (p1, .ok s) => pBlockLoop fuel p1 (acc ++ [s])
      else
        match pConsumeAndExpect p .RightBrace "Expected \x27\x7d\x27 after block" with
        | none => none
        | some (p1, .error e) => some (p1, .error e)
        | some (p1, .ok _) => some (p1, .ok acc)

/-- `Parser::if_statement`, lines 384-411. -/
def pIfStatement : Nat → PState → Option (PState × Except ParserError Statement)
  | 0, _ => none
  | fuel + 1, p =>
      match pExpression fuel p with
      | none => none
      | some (p1, .error e) => some (p1, .error e)
      | some (p1, .ok condition) =>
      match pConsumeAndExpect p1 .LeftBrace "Expected \x27\x7b\x27 after condition" with
      | none => none
      | some (p2, .error e) => some (p2, .error e)
      | some (p2, .ok _) =>
      match pBlock fuel p2 with
      | none => none
      | some (p3, .error e) => some (p3, .error e)
      | some (p3, .ok statements) =>
      match pConsumedOneOf p3 [.Else] with
      | none => none
      | some (false, p4) => some (p4, .ok (.If condition statements none))
      | some (true, p4) =>
          match pConsumeAndExpect p4 .LeftBrace "Expected \x27\x7b\x27 after condition" with
          | none => none
          | some (p5, .error e) => some (p5, .error e)
          | some (p5, .ok _) =>
              match pBlock fuel p5 with
              | none => none
              | some (p6, .error e) => some (p6, .error e)
              | some (p6, .ok elseStatements) =>
                  some (p6, .ok (.If condition statements (some elseStatements)))

/-- `Parser::while_statement`, lines 413-428 (entered from the `for`
keyword; builds the while/for statement). -/
def pWhileStatement : Nat → PState → Option (PState × Except ParserError Statement)
  | 0, _ => none
  | fuel + 1, p =>
      match pExpression fuel p with
      | none => none
      | some (p1, .error e) => some (p1, .error e)
      | some (p1, .ok condition) =>
      match pConsumeAndExpect p1 .LeftBrace "Expected \x27\x7b\x27 after condition" with
      | none => none
      | some (p2, .error e) => some (p2, .error e)
      | some (p2, .ok _) =>
      match pBlock fuel p2 with
      | none => none
      | some (p3, .error e) => some (p3, .error e)
      | some (p3, .ok statements) =>
          some (p3, .ok (.While condition statements))

end

/-- The accumulation loop of `Parser::parse`, lines 53-65: on success
push the statement, on error record it and resynchronize. -/
def parseLoop : Nat → PState → List Statement → List ParserError →
    Option (List Statement × List ParserError)
  | 0, _, _, _ => none
  | fuel + 1, p, statements, errors =>
      match pIsEnd p with
      | none => none
      | some true => some (statements, errors)
      | some false =>
          match pStatement fuel p with
          | none => none
          | some (p1, .ok s) => parseLoop fuel p1 (statements ++ [s]) errors
          | some (p1, .error e) =>
              match pSync fuel p1 with
              | none => none
              | some p2 => parseLoop fuel p2 statements (errors ++ [e])

/-- The statement/error accumulation of `Parser::parse` from index 0;
the fuel is ample for any `Eof`-terminated input that Rust terminates on. -/
def parseProgram (tokens : List Token) : Option (List Statement × List ParserError) :=
  parseLoop (tokens.length * 20 + 100) ⟨tokens, 0⟩ [] []

/-- `Parser::parse`, lines 47-72: `Ok(statements)` exactly when the
accumulated error list is empty, else `Err(errors)`. -/
def parse (tokens : List Token) : Option (Except (List ParserError) (List Statement)) :=
  (parseProgram tokens).map fun (statements, errors) =>
    if errors.isEmpty then .ok statements else .error errors

/-! ## Concrete token and AST builders used by the theorems -/

/-- An identifier token for `name` (literal slot as the scanner fills it). -/
def identTok (name : String) : Token :=
  { tokenType := .Identifier, lexeme := name, line := 0, position := 0,
    literal := some (.String name) }

/-- An integer literal token for `i`. -/
def intTok (i : Int) : Token :=
  { tokenType := .Integer, lexeme := toString i, line := 0, position := 0,
    literal := some (.Number (.Integer i)) }

/-- A string literal token. -/
def strTok (s : String) : Token :=
  { tokenType := .String, lexeme := "\x22" ++ s ++ "\x22", line := 0, position := 0,
    literal := some (.String s) }

/-- A `false` keyword token carrying its Boolean literal, as the
interpreter contract expects for literal expressions. -/
def falseTok : Token :=
  { tokenType := .False, lexeme := "false", line := 0, position := 0,
    literal := some (.Boolean false) }

def andTok : Token :=
  { tokenType := .And, lexeme := "&&", line := 0, position := 0, literal := none }

def orTok : Token :=
  { tokenType := .Or, lexeme := "||", line := 0, position := 0, literal := none }

def slashTok : Token :=
  { tokenType := .Slash, lexeme := "/", line := 0, position := 0, literal := none }

def eqeqTok : Token :=
  { tokenType := .DoubleEqual, lexeme := "==", line := 0, position := 0, literal := none }

/-- Integer literal expression. -/
def intLitE (i : Int) : Expression := .Literal (intTok i)

/-- The right operand of the spec example: `(1/0 == 0)`. -/
def divCompareExpr : Expression :=
  .Grouping (.Binary (.Binary (intLitE 1) slashTok (intLitE 0)) eqeqTok (intLitE 0))

/-- The spec example `false && (1/0 == 0)`. -/
def shortCircuitExpr : Expression :=
  .Logical (.Literal falseTok) andTok divCompareExpr

/-! ## Theorems -/

/-- C1: Logical operators short-circuit.  `&&` with a false left operand
yields Boolean false with the right operand arbitrary (so never
evaluated); with a true left operand the Boolean value of the right operand is
the result.  Dually for `||`.  Concretely, `(1/0 == 0)` alone would panic
with a division by zero, yet `false && (1/0 == 0)` evaluates to Boolean
false: the division is never evaluated. -/
theorem logical_and_or_short_circuit :
    (∀ (env env1 : Env) (l r : Expression) (op : Token),
      op.tokenType = .And →
      evalExpr env l = (env1, .ok (.Literal (.Boolean false))) →
      evalExpr env (.Logical l op r) = (env1, .ok (.Literal (.Boolean false))))
    ∧ (∀ (env env1 env2 : Env) (l r : Expression) (op : Token) (b : Bool),
      op.tokenType = .And →
      evalExpr env l = (env1, .ok (.Literal (.Boolean true))) →
      evalExpr env1 r = (env2, .ok (.Literal (.Boolean b))) →
      evalExpr env (.Logical l op r) = (env2, .ok (.Literal (.Boolean b))))
    ∧ (∀ (env env1 : Env) (l r : Expression) (op : Token),
      op.tokenType = .Or →
      evalExpr env l = (env1, .ok (.Literal (.Boolean true))) →
      evalExpr env (.Logical l op r) = (env1, .ok (.Literal (.Boolean true))))
    ∧ (∀ (env env1 env2 : Env) (l r : Expression) (op : Token) (b : Bool),
      op.tokenType = .Or →
      evalExpr env l = (env1, .ok (.Literal (.Boolean false))) →
      evalExpr env1 r = (env2, .ok (.Literal (.Boolean b))) →
      evalExpr env (.Logical l op r) = (env2, .ok (.Literal (.Boolean b))))
    ∧ evalExpr rootEnv divCompareExpr = (rootEnv, .panicked)
    ∧ evalExpr rootEnv shortCircuitExpr = (rootEnv, .ok (.Literal (.Boolean false))) := by
  refine ⟨?_, ?_, ?_, ?_, ?_, ?_⟩
  · intro env env1 l r op hop hl
    simp [evalExpr, hop, hl, unwrapBool]
  · intro env env1 env2 l r op b hop hl hr
    simp [evalExpr, hop, hl, hr, unwrapBool]
  · intro env env1 l r op hop hl
    simp [evalExpr, hop, hl, unwrapBool]
  · intro env env1 env2 l r op b hop hl hr
    simp [evalExpr, hop, hl, hr, unwrapBool]
  · simp [divCompareExpr, evalExpr, binaryOp, unwrapNumber, numDiv, intLitE, intTok, slashTok]
  · simp [shortCircuitExpr, evalExpr, falseTok, andTok, unwrapBool]

/-- C1 witness: the short-circuit theorem applied at the concrete program
of the spec example. -/
theorem logical_and_or_short_circuit_witness :
    evalExpr rootEnv (.Logical (.Literal falseTok) andTok divCompareExpr)
      = (rootEnv, .ok (.Literal (.Boolean false))) :=
  logical_and_or_short_circuit.1 rootEnv rootEnv (.Literal falseTok) divCompareExpr
    andTok rfl (by simp [evalExpr, falseTok])

/-- C2 counterexample: interpreting the integer division `1 / 0` does NOT
terminate with an `Err`: it follows Rust `i32` division, which panics and
aborts the process (`panicked`). -/
theorem div_by_zero_panics :
    evalExpr rootEnv (.Binary (intLitE 1) slashTok (intLitE 0)) = (rootEnv, .panicked) := by
  simp [evalExpr, binaryOp, unwrapNumber, numDiv, intLitE, intTok, slashTok]

/-- C2 (amended): not every malformed input makes a pipeline stage
return `Err` instead of aborting.  Scanning the malformed input `"é` (an
unterminated string opening on a multi-byte character) panics inside the
`lookahead` unwrap — `Scanner::eof` compares the byte length with a char
index — rather than returning the unterminated-string `Err`; interpreting
`i32::MIN / -1` panics just as division by zero does; and an integer
division by any other nonzero Integer divisor terminates normally with
the quotient truncated toward zero. -/
theorem scan_panic_and_integer_division_truncates :
    scan KEYWORDS "\x22é" = .panicked
    ∧ evalExpr rootEnv (.Binary (intLitE (-2147483648)) slashTok (intLitE (-1))) =
        (rootEnv, .panicked)
    ∧ (∀ (a b : Int) (env : Env), b ≠ 0 → ¬ (a = -(2 ^ 31) ∧ b = -1) →
        evalExpr env (.Binary (intLitE a) slashTok (intLitE b)) =
          (env, .ok (.Literal (.Number (.Integer (Int.tdiv a b)))))) := by
  refine ⟨?_, ?_, ?_⟩
  · rfl
  · simp [evalExpr, binaryOp, unwrapNumber, numDiv, intLitE, intTok, slashTok]
  · intro a b env hb hov
    have hov' : ¬ (a = -2147483648 ∧ b = -1) := by norm_num at hov ⊢; exact hov
    simp [evalExpr, binaryOp, unwrapNumber, numDiv, intLitE, intTok, slashTok, hb, hov']

/-- C2 witness: the truncation conjunct applied at `7 / 2`, which
evaluates to the Integer `3`. -/
theorem scan_panic_and_integer_division_truncates_witness :
    evalExpr rootEnv (.Binary (intLitE 7) slashTok (intLitE 2)) =
      (rootEnv, .ok (.Literal (.Number (.Integer 3)))) :=
  scan_panic_and_integer_division_truncates.2.2 7 2 rootEnv (by decide) (by decide)

/-- C4: block declarations do not leak outward.  For every name and every
pair of integer initializers, running `x := v1; { x := v2; }` from the
root environment ends with the single outer scope still binding `x` to
`v1`: the block ran against one fresh child scope that was discarded. -/
theorem block_scope_no_leak (x : String) (v1 v2 : Int) :
    execStmts 10 rootEnv
      [ .VariableDeclaration (identTok x) none (some (intLitE v1)),
        .Block [.VariableDeclaration (identTok x) none (some (intLitE v2))] ]
      = ([[(x, .Literal (.Number (.Integer v1)))]], .ok .Empty) := by
  simp [execStmts, execStmt, execBlock, execDecl, Scope.insert, rootEnv,
    intLitE, intTok, identTok]

/-! ### Scope lemmas shared by the environment theorems -/

/-- The previous value `Scope.insert` reports is exactly the lookup
result before the insertion. -/
theorem Scope.insert_fst (s : Scope) (name : String) (v : Value) :
    (Scope.insert s name v).1 = Scope.lookup s name := by
  induction s with
  | nil => simp [Scope.insert, Scope.lookup]
  | cons head tail ih =>
      obtain ⟨k, w⟩ := head
      by_cases h : k = name <;> simp [Scope.insert, Scope.lookup, h, ih]

/-- After `Scope.insert`, the key maps to the inserted value. -/
theorem Scope.insert_lookup_self (s : Scope) (name : String) (v : Value) :
    Scope.lookup (Scope.insert s name v).2 name = some v := by
  induction s with
  | nil => simp [Scope.insert, Scope.lookup]
  | cons head tail ih =>
      obtain ⟨k, w⟩ := head
      by_cases h : k = name <;> simp [Scope.insert, Scope.lookup, h, ih]

/-- After a successful `Scope.setExisting`, the key maps to the new
value. -/
theorem Scope.setExisting_lookup (s s' : Scope) (name : String) (v : Value)
    (h : Scope.setExisting s name v = some s') :
    Scope.lookup s' name = some v := by
  induction s generalizing s' with
  | nil => simp [Scope.setExisting] at h
  | cons head tail ih =>
      obtain ⟨k, w⟩ := head
      by_cases hk : k = name
      · simp [Scope.setExisting, hk] at h
        subst h
        simp [Scope.lookup]
      · simp [Scope.setExisting, hk] at h
        obtain ⟨rest', hrest, hs'⟩ := h
        subst hs'
        simp [Scope.lookup, hk]
        exact ih rest' hrest

/-- The scopes before the index `findScopeIdx` reports do not bind the
name. -/
theorem lookupVar_take_eq_none (env : Env) (name : String) (k : Nat)
    (h : findScopeIdx env name = some k) :
    lookupVar (List.take k env) name = none := by
  induction env generalizing k with
  | nil => simp [findScopeIdx] at h
  | cons s rest ih =>
      by_cases hs : Scope.lookup s name = none
      · simp [findScopeIdx, hs] at h
        obtain ⟨j, hj, hk⟩ := h
        subst hk
        simp [List.take, lookupVar, hs]
        exact ih j hj
      · obtain ⟨w, hw⟩ := Option.ne_none_iff_exists'.mp hs
        simp [findScopeIdx, hw] at h
        subst h
        simp [lookupVar]

/-- Chain lookup skips a prefix of scopes in which the name is unbound. -/
theorem lookupVar_append_none (xs ys : Env) (name : String)
    (h : lookupVar xs name = none) :
    lookupVar (xs ++ ys) name = lookupVar ys name := by
  induction xs with
  | nil => simp
  | cons s rest ih =>
      by_cases hs : Scope.lookup s name = none
      · simp [lookupVar, hs] at h ⊢
        exact ih h
      · obtain ⟨w, hw⟩ := Option.ne_none_iff_exists'.mp hs
        simp [lookupVar, hw] at h

/-- C9: variable declaration is not atomic on error.  When the declared
name is already bound in the current scope, `execDecl` returns the
redeclaration error — but the returned environment already holds the new
initializer value for that name: the `HashMap::insert` happened before
the duplicate check. -/
theorem redeclaration_error_after_insert
    (s : Scope) (rest : Env) (idTok litTok : Token) (w : Value) (lit : Literal)
    (hlit : litTok.literal = some lit)
    (hbound : Scope.lookup s idTok.lexeme = some w) :
    execDecl (s :: rest) idTok (some (.Literal litTok)) =
      ((Scope.insert s idTok.lexeme (.Literal lit)).2 :: rest,
        .err ("Variable \x27" ++ idTok.lexeme ++ "\x27 already declared in this scope"))
    ∧ Scope.lookup (Scope.insert s idTok.lexeme (.Literal lit)).2 idTok.lexeme
        = some (.Literal lit) := by
  constructor
  · have hold : (Scope.insert s idTok.lexeme (.Literal lit)).1 = some w := by
      rw [Scope.insert_fst]; exact hbound
    simp [execDecl, hlit, hold]
  · exact Scope.insert_lookup_self s idTok.lexeme (.Literal lit)

/-- C9 witness: redeclaring `x` (bound to Integer 1) with initializer `2`
yields the redeclaration error while the scope already holds `2`. -/
theorem redeclaration_error_after_insert_witness :
    execDecl [[("x", Value.Literal (.Number (.Integer 1)))]] (identTok "x")
        (some (.Literal (intTok 2))) =
      ([[("x", Value.Literal (.Number (.Integer 2)))]],
        .err "Variable \x27x\x27 already declared in this scope")
    ∧ Scope.lookup [("x", Value.Literal (.Number (.Integer 2)))] "x"
        = some (.Literal (.Number (.Integer 2))) :=
  redeclaration_error_after_insert [("x", .Literal (.Number (.Integer 1)))] []
    (identTok "x") (intTok 2) (.Literal (.Number (.Integer 1)))
    (.Number (.Integer 2)) rfl rfl

/-- C3: assigning to a name declared at chain depth `k` overwrites that
existing binding and the assignment expression itself evaluates to
`Empty`, not to the assigned value. -/
theorem assignment_overwrites_and_yields_empty
    (env : Env) (k : Nat) (nameTok : Token) (rhs : Expression)
    (s : Scope) (rest : Env) (s' : Scope) (v : Value)
    (hfind : findScopeIdx env nameTok.lexeme = some k)
    (heval : evalExpr (List.drop k env) rhs = (s :: rest, .ok v))
    (hset : Scope.setExisting s nameTok.lexeme v = some s') :
    evalExpr env (.Assignment nameTok rhs) =
      (List.take k env ++ s' :: rest, .ok .Empty)
    ∧ lookupVar (List.take k env ++ s' :: rest) nameTok.lexeme = some v := by
  constructor
  · simp [evalExpr, hfind, heval, hset]
  · rw [lookupVar_append_none _ _ _ (lookupVar_take_eq_none env nameTok.lexeme k hfind)]
    simp [lookupVar, Scope.setExisting_lookup s s' nameTok.lexeme v hset]

/-- C3 witness: `x = 2` with `x` bound to Integer 1 in the root scope
rebinds `x` to 2 and the assignment evaluates to `Empty`. -/
theorem assignment_overwrites_and_yields_empty_witness :
    evalExpr [[("x", Value.Literal (.Number (.Integer 1)))]]
        (.Assignment (identTok "x") (intLitE 2)) =
      ([[("x", Value.Literal (.Number (.Integer 2)))]], .ok .Empty)
    ∧ lookupVar [[("x", Value.Literal (.Number (.Integer 2)))]] "x"
        = some (.Literal (.Number (.Integer 2))) :=
  assignment_overwrites_and_yields_empty
    [[("x", .Literal (.Number (.Integer 1)))]] 0 (identTok "x") (intLitE 2)
    [("x", .Literal (.Number (.Integer 1)))] [] [("x", .Literal (.Number (.Integer 2)))]
    (.Literal (.Number (.Integer 2))) rfl rfl rfl

/-- C10: when the assignment target is not in the current scope but in an
ancestor at depth `j + 1`, the right-hand side is evaluated against that
chain of that ancestor — a right-hand side reading a name `y` that is bound
only in the current (inner) scope yields the "not found" runtime error,
even though a plain read of `y` in the current environment succeeds. -/
theorem assignment_rhs_evaluated_in_ancestor
    (s0 : Scope) (restEnv : Env) (j : Nat) (xTok yTok : Token) (vy : Value)
    (hx0 : Scope.lookup s0 xTok.lexeme = none)
    (hxj : findScopeIdx restEnv xTok.lexeme = some j)
    (hyInner : Scope.lookup s0 yTok.lexeme = some vy)
    (hyOuter : lookupVar (List.drop (j + 1) (s0 :: restEnv)) yTok.lexeme = none) :
    evalExpr (s0 :: restEnv) (.Assignment xTok (.Variable yTok)) =
      (s0 :: restEnv,
        .err ("Variable \x27" ++ yTok.lexeme ++ "\x27 not found in the current scope"))
    ∧ evalExpr (s0 :: restEnv) (.Variable yTok) = (s0 :: restEnv, .ok vy) := by
  have hfind : findScopeIdx (s0 :: restEnv) xTok.lexeme = some (j + 1) := by
    simp [findScopeIdx, hx0, hxj]
  constructor
  · rw [List.drop_succ_cons] at hyOuter
    simp [evalExpr, hfind, hyOuter, List.take_append_drop]
  · simp [evalExpr, lookupVar, hyInner]

/-- C10 witness: with inner scope `{y ↦ 5}` and parent scope `{x ↦ 1}`,
evaluating `x = y` fails with "Variable 'y' not found in the current
scope", while reading `y` directly succeeds. -/
theorem assignment_rhs_evaluated_in_ancestor_witness :
    evalExpr [[("y", Value.Literal (.Number (.Integer 5)))],
              [("x", Value.Literal (.Number (.Integer 1)))]]
        (.Assignment (identTok "x") (.Variable (identTok "y"))) =
      ([[("y", Value.Literal (.Number (.Integer 5)))],
        [("x", Value.Literal (.Number (.Integer 1)))]],
        .err "Variable \x27y\x27 not found in the current scope")
    ∧ evalExpr [[("y", Value.Literal (.Number (.Integer 5)))],
                [("x", Value.Literal (.Number (.Integer 1)))]]
        (.Variable (identTok "y")) =
      ([[("y", Value.Literal (.Number (.Integer 5)))],
        [("x", Value.Literal (.Number (.Integer 1)))]],
        .ok (.Literal (.Number (.Integer 5)))) :=
  assignment_rhs_evaluated_in_ancestor
    [("y", .Literal (.Number (.Integer 5)))] [[("x", .Literal (.Number (.Integer 1)))]]
    0 (identTok "x") (identTok "y") (.Literal (.Number (.Integer 5)))
    rfl rfl rfl rfl

/-- The three literal kinds the equality dispatch distinguishes
(`Number`/`String`/`Boolean`; `Integer` and `Float` are both `Number`). -/
inductive LitKind where
  | number | string | boolean
  deriving DecidableEq

/-- The kind of a literal. -/
def Literal.kind : Literal → LitKind
  | .Number _ => .number
  | .String _ => .string
  | .Boolean _ => .boolean

/-- C6: `==`/`!=` on two literal values of different kinds is a runtime
error whose message names both kinds (never a Boolean false); on two
literals of the same kind the result is a Boolean.  Concretely,
`1 == "1"` is the error message naming Integer and String. -/
theorem equality_requires_same_kind :
    (∀ (lt rt op : Token) (ll rl : Literal) (env : Env),
      lt.literal = some ll → rt.literal = some rl →
      op.tokenType = .DoubleEqual ∨ op.tokenType = .BangEqual →
      (ll.kind ≠ rl.kind →
        evalExpr env (.Binary (.Literal lt) op (.Literal rt)) =
          (env, .err ("Can\x27t compare " ++ ll.getType ++ " with " ++ rl.getType)))
      ∧ (ll.kind = rl.kind →
        ∃ b, evalExpr env (.Binary (.Literal lt) op (.Literal rt)) =
          (env, .ok (.Literal (.Boolean b)))))
    ∧ evalExpr rootEnv (.Binary (intLitE 1) eqeqTok (.Literal (strTok "1"))) =
        (rootEnv, .err "Can\x27t compare Integer with String") := by
  constructor
  · intro lt rt op ll rl env hl hr hop
    constructor
    · intro hkind
      rcases hop with hop | hop <;>
        cases ll <;> cases rl <;>
          simp_all [evalExpr, binaryOp, Literal.kind]
    · intro hkind
      rcases hop with hop | hop <;>
        cases ll <;> cases rl <;>
          simp_all [evalExpr, binaryOp, Literal.kind] <;>
        tauto
  · simp [evalExpr, binaryOp, intLitE, intTok, strTok, eqeqTok, Literal.getType]

/-- C6 witness: the general dispatch applied to `1 == "1"`. -/
theorem equality_requires_same_kind_witness :
    evalExpr rootEnv (.Binary (.Literal (intTok 1)) eqeqTok (.Literal (strTok "1"))) =
      (rootEnv, .err ("Can\x27t compare " ++ (Literal.Number (.Integer 1)).getType ++
        " with " ++ (Literal.String "1").getType)) :=
  (equality_requires_same_kind.1 (intTok 1) (strTok "1") eqeqTok
    (.Number (.Integer 1)) (.String "1") rootEnv rfl rfl (Or.inl rfl)).1 (by decide)

/-- A source unit with two independent syntax errors on unrelated
statements (a dangling `+` before each `;`), one per line. -/
def twoErrorSource : String := "1 +;\n2 +;"

/-- The token sequence the scanner produces for `twoErrorSource`. -/
def twoErrorTokens : List Token :=
  [ ⟨.Integer, "1", 0, 1, some (.Number (.Integer 1))⟩,
    ⟨.Plus, "+", 0, 3, none⟩,
    ⟨.SemiColon, ";", 0, 4, none⟩,
    ⟨.Integer, "2", 1, 1, some (.Number (.Integer 2))⟩,
    ⟨.Plus, "+", 1, 3, none⟩,
    ⟨.SemiColon, ";", 1, 4, none⟩,
    ⟨.Eof, ";", 1, 4, none⟩ ]

/-- C5: `parse` returns `Ok` exactly when zero parse errors were
recorded; and on the two-error source unit, panic-mode recovery
resynchronizes so that parsing yields exactly two `ParserError`s, each
carrying the offending token with its recorded line and column. -/
theorem parse_ok_iff_no_errors :
    (∀ (tokens : List Token) (stmts : List Statement) (errs : List ParserError),
      parseProgram tokens = some (stmts, errs) →
      (parse tokens = some (.ok stmts) ↔ errs = []))
    ∧ scan KEYWORDS twoErrorSource = .ok twoErrorTokens
    ∧ parse twoErrorTokens = some (.error
        [ ⟨"Unexpected token \x27;\x27", ⟨.SemiColon, ";", 0, 4, none⟩⟩,
          ⟨"Unexpected token \x27;\x27", ⟨.SemiColon, ";", 1, 4, none⟩⟩ ]) := by
  refine ⟨?_, ?_, ?_⟩
  · intro tokens stmts errs h
    unfold parse
    rw [h]
    cases errs <;> simp
  · rfl
  · rfl

/-- C5 witness: the Ok-iff-no-errors contract applied to the concrete
two-error token sequence. -/
theorem parse_ok_iff_no_errors_witness :
    parse twoErrorTokens = some (.ok []) ↔
      ([ ⟨"Unexpected token \x27;\x27", ⟨.SemiColon, ";", 0, 4, none⟩⟩,
         ⟨"Unexpected token \x27;\x27", ⟨.SemiColon, ";", 1, 4, none⟩⟩ ] :
        List ParserError) = [] :=
  parse_ok_iff_no_errors.1 twoErrorTokens []
    [ ⟨"Unexpected token \x27;\x27", ⟨.SemiColon, ";", 0, 4, none⟩⟩,
      ⟨"Unexpected token \x27;\x27", ⟨.SemiColon, ";", 1, 4, none⟩⟩ ]
    (by rfl)

/-- C7: the positions the scanner actually records.  On the repository
test input `"1 + 1;"` the first token carries `line = 0` (the tests
and spec expect the 1-based `line = 1`), and on `"15;"` the two-character
token `15` carries `position = 2` — the column of its LAST character —
where the spec expects the column of the first character (1). -/
theorem scan_records_zero_based_line_and_last_char_column :
    scan KEYWORDS "1 + 1;" = .ok
      [ ⟨.Integer, "1", 0, 1, some (.Number (.Integer 1))⟩,
        ⟨.Plus, "+", 0, 3, none⟩,
        ⟨.Integer, "1", 0, 5, some (.Number (.Integer 1))⟩,
        ⟨.SemiColon, ";", 0, 6, none⟩,
        ⟨.Eof, ";", 0, 6, none⟩ ]
    ∧ scan KEYWORDS "15;" = .ok
      [ ⟨.Integer, "15", 0, 2, some (.Number (.Integer 15))⟩,
        ⟨.SemiColon, ";", 0, 3, none⟩,
        ⟨.Eof, ";", 0, 3, none⟩ ] := by
  exact ⟨rfl, rfl⟩

/-- C8: a keyword-table hit emits the keyword token, but with NO attached
literal — including for `true` and `false` (the claim expects an attached
Boolean literal there); a non-keyword run is emitted as an `Identifier`
token carrying its text as literal.  Evaluating the literal expression
built from such a `true` token hits the internal interpreter
"should never be the case" error. -/
theorem keyword_tokens_carry_no_literal :
    scan KEYWORDS "true;" = .ok
      [ ⟨.True, "true", 0, 4, none⟩,
        ⟨.SemiColon, ";", 0, 5, none⟩,
        ⟨.Eof, ";", 0, 5, none⟩ ]
    ∧ scan KEYWORDS "false;" = .ok
      [ ⟨.False, "false", 0, 5, none⟩,
        ⟨.SemiColon, ";", 0, 6, none⟩,
        ⟨.Eof, ";", 0, 6, none⟩ ]
    ∧ scan KEYWORDS "ab" = .ok
      [ ⟨.Identifier, "ab", 0, 2, some (.String "ab")⟩,
        ⟨.Eof, "ab", 0, 2, none⟩ ]
    ∧ evalExpr rootEnv (.Literal ⟨.True, "true", 0, 4, none⟩) =
        (rootEnv, .err "Literal expression value is None. This should never be the case.") := by
  exact ⟨rfl, rfl, rfl, rfl⟩

end Matcha
